import Mathlib

/-!
Shallow embedding of the `rust-fprint` wrapper crates (`fprint-rs`, `fprint-sys`).

Native pointers are modelled as `Option Nat` (`none` = null).  Calls into the
native libfprint library are modelled by passing the native call's outputs
(return code, out-pointer contents) as explicit arguments to the embedded
wrapper functions, which reproduce the Rust wrappers' classification logic.
Reads through raw pointers are modelled by an `Outcome` type whose `crash`
constructor stands for undefined behaviour (null dereference or an
out-of-bounds read).
-/

namespace FPrint

/-- `libc::ENOENT` on Linux. -/
def ENOENT : Int := 2

/-- `libc::ENOTSUP` on Linux. -/
def ENOTSUP : Int := 95

/-- The ten-value finger enumeration from `fprint-rs/src/finger.rs`. -/
inductive Finger where
  | LeftThumb
  | LeftIndex
  | LeftMiddle
  | LeftRing
  | LeftLittle
  | RightThumb
  | RightIndex
  | RightMiddle
  | RightRing
  | RightLittle
deriving DecidableEq, Repr, Fintype

/-- The Rust discriminant of `Finger` (`finger as u32`): values 1 through 10. -/
def Finger.encode : Finger → Nat
  | .LeftThumb => 1
  | .LeftIndex => 2
  | .LeftMiddle => 3
  | .LeftRing => 4
  | .LeftLittle => 5
  | .RightThumb => 6
  | .RightIndex => 7
  | .RightMiddle => 8
  | .RightRing => 9
  | .RightLittle => 10

/-- Verification result codes of `fprint-rs/src/device.rs` (`enum VerifyResult`).
The discriminants are `NoMatch = 0`, `Match = 1`, `Retry = 100`,
`RetryTooShort = 101`, `RetryCenterFinger = 102`, `RetryRemoveFinger = 103`. -/
inductive VerifyResult where
  | NoMatch
  | Match
  | Retry
  | RetryTooShort
  | RetryCenterFinger
  | RetryRemoveFinger
deriving DecidableEq, Repr

/-- Enroll result codes of `fprint-rs/src/device.rs` (`enum EnrollResult`).
Discriminants: `Complete = 1`, `Fail = 2`, `Pass = 3`, `Retry = 100`,
`RetryTooShort = 101`, `RetryCenterFinger = 102`, `RetryRemoveFinger = 103`. -/
inductive EnrollResult where
  | Complete
  | Fail
  | Pass
  | Retry
  | RetryTooShort
  | RetryCenterFinger
  | RetryRemoveFinger
deriving DecidableEq, Repr

/-- Sub-context of the `NullPtr` error (`fprint-rs/src/errors.rs`). -/
inductive NullPtrContext where
  | Discovering
  | LoadPrintData
  | Binarize
  | CreateDiscoveringDevice
deriving DecidableEq, Repr

/-- Sub-context of the `NotSupported` error (`fprint-rs/src/errors.rs`). -/
inductive NotSupportContext where
  | CapturingImage
  | Identify
deriving DecidableEq, Repr

/-- The error taxonomy `FPrintError` of `fprint-rs/src/errors.rs`. -/
inductive FPrintError where
  | InitError (code : Int)
  | NullPtr (ctx : NullPtrContext)
  | FingerprintNotFound (finger : Finger)
  | Obscure (code : Int)
  | RemoveFingerprint (finger : Finger)
  | NotSupported (ctx : NotSupportContext)
  | Other (code : Int)
  | UnexpectedAbort (code : Int)
  | EnrollImage (r : EnrollResult)
  | VerifyFailed (code : Int)
  | RetryVerification (r : VerifyResult)
  | IdentifyFailed (code : Int)
  | SavePrint (code : Int)
  | ConvertationFailed
  | TryFromError (raw : Nat)
  | PathNotExists
  | NeedError
deriving DecidableEq, Repr

/-- `impl TryFrom<fp_finger> for Finger` (`fprint-rs/src/finger.rs`): raw values
1..10 decode to the ten fingers, anything else is `TryFromError(n)`. -/
def Finger.tryFrom : Nat → Except FPrintError Finger
  | 1 => .ok .LeftThumb
  | 2 => .ok .LeftIndex
  | 3 => .ok .LeftMiddle
  | 4 => .ok .LeftRing
  | 5 => .ok .LeftLittle
  | 6 => .ok .RightThumb
  | 7 => .ok .RightIndex
  | 8 => .ok .RightMiddle
  | 9 => .ok .RightRing
  | 10 => .ok .RightLittle
  | n => .error (.TryFromError n)

/-- Outcome of an operation on raw native memory: `crash` stands for undefined
behaviour (dereferencing a null pointer, or reading past the end of the
null-terminated array). -/
inductive Outcome (α : Type) where
  | crash
  | ok (value : α)
deriving DecidableEq, Repr

/-- Model of `DiscoveredDevices` (`fprint-rs/src/discovered_device.rs`).  The
field `inner` is the raw `*mut *mut fp_dscv_dev`: `none` models a null handle;
`some l` models a non-null pointer to a null-terminated array whose entries
before the terminator are the non-null discovered-device handles listed in
`l`. -/
structure DiscoveredDevices where
  inner : Option (List Nat)
  current_item_number : Int
deriving DecidableEq, Repr

/-- `DiscoveredDevices::with_devices`: wraps a raw array handle with the item
cursor at 0. -/
def DiscoveredDevices.with_devices (devices : Option (List Nat)) : DiscoveredDevices :=
  ⟨devices, 0⟩

/-- `FPrint::discover` (`fprint-rs/src/lib.rs`): wraps whatever array handle
the native `fp_discover_devs` returned; a discovery that found no hardware
hands back a null handle (`none`). -/
def discover (devices_list : Option (List Nat)) : DiscoveredDevices :=
  DiscoveredDevices.with_devices devices_list

/-- Result of reading one pointer slot of the discovered-device array. -/
inductive ReadResult where
  | crash
  | nullPtr
  | dev (handle : Nat)
deriving DecidableEq, Repr

/-- Model of `self.inner.offset(i).read()`: dereferencing a null array handle,
a negative offset, or an offset beyond the terminator is undefined behaviour
(`crash`); offset `l.length` reads the null terminator; smaller offsets read
the device handles. -/
def DiscoveredDevices.read_at (d : DiscoveredDevices) (i : Int) : ReadResult :=
  match d.inner with
  | none => .crash
  | some l =>
    if i < 0 then .crash
    else if hlt : i.toNat < l.length then .dev (l.get ⟨i.toNat, hlt⟩)
    else if i.toNat = l.length then .nullPtr
    else .crash

/-- `size_of::<*mut fp_dscv_dev>()` on a 64-bit target, in bytes. -/
def ptr_size : Nat := 8

/-- `DiscoveredDevices::count`:
`size_of_val(&self.inner) / size_of::<*mut fp_dscv_dev>()`.  The numerator is
the in-memory size of the field `inner`, itself a single pointer, so the
quotient is the pointer size divided by the pointer size. -/
def DiscoveredDevices.count (_d : DiscoveredDevices) : Nat :=
  ptr_size / ptr_size

/-- The true element count of the underlying null-terminated array: the number
of entries before the first null terminator (0 for a null handle). -/
def DiscoveredDevices.true_count (d : DiscoveredDevices) : Nat :=
  match d.inner with
  | none => 0
  | some l => l.length

/-- `index as usize` for `index: isize`: 64-bit two's-complement
reinterpretation. -/
def usize_of_isize (i : Int) : Nat :=
  (i % (2 : Int) ^ 64).toNat

/-- `DiscoveredDevices::get`: early return `None` when
`index as usize >= self.count()`, otherwise read the slot at `index` and
return the device there, or `None` if the slot holds the null terminator. -/
def DiscoveredDevices.get (d : DiscoveredDevices) (index : Int) : Outcome (Option Nat) :=
  if d.count ≤ usize_of_isize index then .ok none
  else
    match d.read_at index with
    | .crash => .crash
    | .nullPtr => .ok none
    | .dev h => .ok (some h)

/-- `impl Iterator for DiscoveredDevices`: `next` reads the slot at
`current_item_number` and returns the device there (`None` at the null
terminator).  The source never modifies `current_item_number`, so the iterator
state after the call equals the state before it. -/
def DiscoveredDevices.next (d : DiscoveredDevices) : Outcome (Option Nat × DiscoveredDevices) :=
  match d.read_at d.current_item_number with
  | .crash => .crash
  | .nullPtr => .ok (none, d)
  | .dev h => .ok (some h, d)

instance {ε α : Type} [DecidableEq ε] [DecidableEq α] : DecidableEq (Except ε α) :=
  fun a b =>
    match a, b with
    | .error x, .error y =>
      if h : x = y then .isTrue (by rw [h]) else .isFalse (fun hc => h (by injection hc))
    | .error _, .ok _ => .isFalse (fun hc => Except.noConfusion hc)
    | .ok _, .error _ => .isFalse (fun hc => Except.noConfusion hc)
    | .ok x, .ok y =>
      if h : x = y then .isTrue (by rw [h]) else .isFalse (fun hc => h (by injection hc))

/-- `Device::load_data` (`fprint-rs/src/device.rs`).  `result` is the native
return code of `fp_print_data_load` and `data` the contents of the out-pointer
after the call (`none` = left null).  The source checks the out-pointer for
null first, then the `-ENOENT` code, then any other non-zero code. -/
def Device.load_data (finger : Finger) (result : Int) (data : Option Nat) :
    Except FPrintError Nat :=
  match data with
  | none => .error (.NullPtr .LoadPrintData)
  | some d =>
    if result = -ENOENT then .error (.FingerprintNotFound finger)
    else if result ≠ 0 then .error (.Obscure result)
    else .ok d

/-- The Rust discriminant of `EnrollResult` (`enroll_result as u32`). -/
def EnrollResult.discriminant : EnrollResult → Nat
  | .Complete => 1
  | .Fail => 2
  | .Pass => 3
  | .Retry => 100
  | .RetryTooShort => 101
  | .RetryCenterFinger => 102
  | .RetryRemoveFinger => 103

/-- `impl TryFrom<u32> for VerifyResult` (`fprint-rs/src/device.rs`; the impl
in `fprint-sys/src/device.rs` handles the same numeric cases): raw 0 and 1
decode to `NoMatch` and `Match`; the guards cover `Retry` (100),
`RetryCenterFinger` (102) and `RetryRemoveFinger` (103); there is no arm for
101 (`RetryTooShort`), so 101 falls to the catch-all `TryFromError`. -/
def VerifyResult.tryFrom (value : Nat) : Except FPrintError VerifyResult :=
  if value = 0 then .ok .NoMatch
  else if value = 1 then .ok .Match
  else if value = EnrollResult.Retry.discriminant then .ok .Retry
  else if value = EnrollResult.RetryCenterFinger.discriminant then .ok .RetryCenterFinger
  else if value = EnrollResult.RetryRemoveFinger.discriminant then .ok .RetryRemoveFinger
  else .error (.TryFromError value)

/-- `Device::verify_finger_image` (`fprint-rs/src/device.rs`): `result` is the
native return code of `fp_verify_finger_img`.  Negative codes become
`VerifyFailed`; nonnegative codes are decoded by `VerifyResult.tryFrom`
(propagating its error); `Match` and `NoMatch` are success values and every
other decoded result becomes the `RetryVerification` error. -/
def Device.verify_finger_image (result : Int) : Except FPrintError VerifyResult :=
  if result < 0 then .error (.VerifyFailed result)
  else
    match VerifyResult.tryFrom result.toNat with
    | .error e => .error e
    | .ok r =>
      match r with
      | .Match => .ok r
      | .NoMatch => .ok r
      | _ => .error (.RetryVerification r)

/-- `Device::supports_imaging`: the native query's result compared with
`== 0`. -/
def Device.supports_imaging (result : Int) : Bool :=
  result == 0

/-- `Device::supports_identification`: the native query's result compared with
`== 0`. -/
def Device.supports_identification (result : Int) : Bool :=
  result == 0

/-- `Device::supports_print_data`: the native query's result compared with
`!= 0`. -/
def Device.supports_print_data (result : Int) : Bool :=
  result != 0

/-- `DiscoveredDev::supports_print_data`
(`fprint-rs/src/discovered_device.rs`): the native query's result compared
with `== 1`. -/
def DiscoveredDev.supports_print_data (result : Int) : Bool :=
  result == 1

/-- `Path::exists` over an explicit filesystem: `fs` lists the currently
existing paths, each path a list of components. -/
def path_exists (fs : List (List Nat)) (p : List Nat) : Bool :=
  fs.contains p

/-- `Image::save_to_file` (`fprint-rs/src/device.rs`): the wrapper first
requires `path.exists()` — existence of the full target path — and only then
forwards to the native `fp_img_save_to_file`, whose return code `native` is
mapped (0 to success, otherwise `SavePrint`). -/
def Image.save_to_file (fs : List (List Nat)) (path : List Nat) (native : Int) :
    Except FPrintError Unit :=
  if ¬ path_exists fs path then .error .PathNotExists
  else if native = 0 then .ok ()
  else .error (.SavePrint native)

/-- `impl TryFrom<u32> for EnrollResult` (`fprint-rs/src/device.rs`): raw
codes 1, 2, 3, 100, 101, 102, 103 decode to the enroll results; anything else
is `TryFromError`. -/
def EnrollResult.tryFrom (value : Nat) : Except FPrintError EnrollResult :=
  if value = 1 then .ok .Complete
  else if value = 2 then .ok .Fail
  else if value = 3 then .ok .Pass
  else if value = 100 then .ok .Retry
  else if value = 101 then .ok .RetryTooShort
  else if value = 102 then .ok .RetryCenterFinger
  else if value = 103 then .ok .RetryRemoveFinger
  else .error (.TryFromError value)

/-- `Device::enroll_finger_image` (`fprint-rs/src/device.rs`): `result` is the
native return code of `fp_enroll_finger_img`; negative codes become the
`UnexpectedAbort` error, nonnegative codes are decoded as an `EnrollResult`. -/
def Device.enroll_finger_image (result : Int) : Except FPrintError EnrollResult :=
  if result < 0 then .error (.UnexpectedAbort result)
  else EnrollResult.tryFrom result.toNat

/-- The generator returned by `Device::enroll` (`fprint-rs/src/device.rs`),
driven to its end: `outcomes` lists the native return codes of the successive
`fp_enroll_finger_img` calls, and `data_null` tells whether the print-data
out-pointer is still null when `Complete` arrives.  The result pairs the
yielded intermediate enroll results with the generator's return value —
`none` if the outcome list is exhausted while the loop is still suspended,
`some` the returned `Result` once the loop finishes (`Ok` with the finished
print data, modelled as `Unit`, or the propagated error). -/
def Device.enroll_drive (outcomes : List Int) (data_null : Bool) :
    List EnrollResult × Option (Except FPrintError Unit) :=
  match outcomes with
  | [] => ([], none)
  | r :: rest =>
    match Device.enroll_finger_image r with
    | .error e => ([], some (.error e))
    | .ok er =>
      if er = .Complete then
        ([], some (if data_null then .error (.Obscure 0) else .ok ()))
      else
        let step := Device.enroll_drive rest data_null
        (er :: step.1, step.2)

/-- `PrintData::from_bytes_raw` (`fprint-sys/src/print_data.rs`): the native
`fp_print_data_from_data` — modelled by the function `parse`, from byte
buffers to an optional template handle — returns null (`none`) on malformed
input, which is mapped to the `NeedError` error. -/
def PrintData.from_bytes_raw (parse : List Nat → Option Nat) (bytes : List Nat) :
    Except FPrintError Nat :=
  match parse bytes with
  | none => .error .NeedError
  | some p => .ok p

/-- The gallery-construction step of `Device::identify_finger_image`
(`fprint-sys/src/device.rs`): each byte-template is reconstructed with
`from_bytes_raw`, failed reconstructions are filtered out
(`filter(Result::is_ok)`), and the survivors are unwrapped in order. -/
def build_gallery (parse : List Nat → Option Nat) (gallery : List (List Nat)) :
    List Nat :=
  ((gallery.map (PrintData.from_bytes_raw parse)).filter fun r =>
      match r with
      | .ok _ => true
      | .error _ => false).filterMap fun r =>
    match r with
    | .ok p => some p
    | .error _ => none

/-- `IdentifyResult` (`fprint-sys/src/device.rs`): either the match offset or
the embedded non-match verify code. -/
inductive IdentifyResult where
  | Matched (offset : Nat)
  | Error (r : VerifyResult)
deriving DecidableEq, Repr

/-- `Device::identify_finger_image` (`fprint-sys/src/device.rs`): builds the
native null-terminated gallery array (first component of the result: `some`
entries are the reconstructed template handles, the final `none` is the pushed
null terminator) and classifies the native return code `result`, with native
match offset `offset`: `-ENOTSUP` is `NotSupported(Identify)`, other negative
codes `IdentifyFailed`; nonnegative codes are decoded as a `VerifyResult`
(propagating the decode error), `Match` becoming `Matched(offset)` and every
other decoded result the `Error` variant of the successful return. -/
def Device.identify_finger_image (parse : List Nat → Option Nat)
    (gallery : List (List Nat)) (result : Int) (offset : Nat) :
    List (Option Nat) × Except FPrintError IdentifyResult :=
  let native_gallery := (build_gallery parse gallery).map some ++ [none]
  let classified : Except FPrintError IdentifyResult :=
    if result = -ENOTSUP then .error (.NotSupported .Identify)
    else if result < 0 then .error (.IdentifyFailed result)
    else
      match VerifyResult.tryFrom result.toNat with
      | .error e => .error e
      | .ok .Match => .ok (.Matched offset)
      | .ok n => .ok (.Error n)
  (native_gallery, classified)

end FPrint

namespace FPrint

/-- Claim C8: for every `Finger` value `f`, decoding its numeric encoding gives
back `f`; `encode` is injective with image exactly the raw values 1..10 (hence a
bijection between the ten fingers and `{1..10}`); and decoding any raw value
outside 1..10 fails with `TryFromError` carrying that raw value. -/
theorem finger_encode_decode_bijection :
    (∀ f : Finger, Finger.tryFrom f.encode = .ok f) ∧
    Function.Injective Finger.encode ∧
    (∀ f : Finger, 1 ≤ f.encode ∧ f.encode ≤ 10) ∧
    (∀ n : Nat, 1 ≤ n → n ≤ 10 → ∃ f : Finger, f.encode = n) ∧
    (∀ n : Nat, ¬(1 ≤ n ∧ n ≤ 10) → Finger.tryFrom n = .error (.TryFromError n)) := by
  refine ⟨fun f => by cases f <;> rfl, by decide, by decide, ?_, ?_⟩
  · intro n h1 h10
    interval_cases n
    · exact ⟨.LeftThumb, rfl⟩
    · exact ⟨.LeftIndex, rfl⟩
    · exact ⟨.LeftMiddle, rfl⟩
    · exact ⟨.LeftRing, rfl⟩
    · exact ⟨.LeftLittle, rfl⟩
    · exact ⟨.RightThumb, rfl⟩
    · exact ⟨.RightIndex, rfl⟩
    · exact ⟨.RightMiddle, rfl⟩
    · exact ⟨.RightRing, rfl⟩
    · exact ⟨.RightLittle, rfl⟩
  · intro n h
    match n with
    | 0 => rfl
    | 1 | 2 | 3 | 4 | 5 | 6 | 7 | 8 | 9 | 10 => omega
    | m + 11 => rfl

/-- Concrete instantiation of `finger_encode_decode_bijection`: the round trip
at `RightRing` and the failure of decoding at raw value 11. -/
theorem finger_encode_decode_bijection_witness :
    Finger.tryFrom (Finger.encode .RightRing) = .ok .RightRing ∧
    Finger.tryFrom 11 = .error (.TryFromError 11) :=
  ⟨finger_encode_decode_bijection.1 .RightRing,
   finger_encode_decode_bijection.2.2.2.2 11 (by decide)⟩

/-- Claim C1 (code bug in the source): `DiscoveredDevices::count` divides the
in-memory size of the set's own handle field by the pointer size, which is 1
for every set, instead of scanning the null-terminated array for its
terminator.  A set holding two devices has true element count 2 while
`count()` reports 1, and the null set produced by an empty discovery has true
element count 0 while `count()` reports 1. -/
theorem discovered_devices_count_is_constant_one :
    (∀ d : DiscoveredDevices, d.count = 1) ∧
    (DiscoveredDevices.with_devices (some [10, 20])).count = 1 ∧
    (DiscoveredDevices.with_devices (some [10, 20])).true_count = 2 ∧
    (discover none).count = 1 ∧
    (discover none).true_count = 0 :=
  ⟨fun _ => rfl, rfl, rfl, rfl, rfl⟩

/-- Claim C2 (code bug in the source): on the set produced by a discovery that
found no hardware (null underlying handle), `get(0)` passes the bounds check —
because `count()` wrongly reports 1 — and then dereferences the null array
pointer, which is undefined behaviour (a crash), instead of returning `None`.
For indices at or above `count()` the early bounds check does return `None`
(shown here at index 1). -/
theorem get_zero_on_null_set_crashes :
    (discover none).get 0 = .crash ∧
    (discover none).get 1 = .ok none := by
  decide

/-- Claim C3 (code bug in the source): the iterator's `next` never increments
`current_item_number`, so the iterator state after any successful step equals
the state before it; on a one-device set every step yields device 0 again and
the produced sequence never reaches the terminator, instead of advancing one
element per step and having length equal to the element count. -/
theorem iterator_never_advances :
    (∀ (d : DiscoveredDevices) (x : Option Nat) (d2 : DiscoveredDevices),
        d.next = .ok (x, d2) → d2 = d) ∧
    (DiscoveredDevices.with_devices (some [10])).next =
      .ok (some 10, DiscoveredDevices.with_devices (some [10])) := by
  constructor
  · intro d x d2 h
    unfold DiscoveredDevices.next at h
    cases hr : d.read_at d.current_item_number <;> rw [hr] at h
    · exact absurd h (by simp)
    · rw [Outcome.ok.injEq, Prod.mk.injEq] at h
      exact h.2.symm
    · rw [Outcome.ok.injEq, Prod.mk.injEq] at h
      exact h.2.symm
  · decide

/-- Concrete instantiation of the state-preservation half of
`iterator_never_advances`: stepping the one-device set returns the very same
iterator state. -/
theorem iterator_never_advances_witness :
    DiscoveredDevices.with_devices (some [10]) =
      DiscoveredDevices.with_devices (some [10]) :=
  iterator_never_advances.1 (DiscoveredDevices.with_devices (some [10]))
    (some 10) (DiscoveredDevices.with_devices (some [10])) (by decide)

/-- Claim C4 counterexample: when the native load returns `-ENOENT` and leaves
the out-pointer null — the missing-template situation — `load_data` returns
`NullPtr(LoadPrintData)` and not `FingerprintNotFound`: the null check runs
before the code check, so `NullPtr` is not reserved to success codes. -/
theorem load_data_enoent_null_counterexample :
    Device.load_data .LeftThumb (-ENOENT) none = .error (.NullPtr .LoadPrintData) ∧
    Device.load_data .LeftThumb (-ENOENT) none ≠
      .error (.FingerprintNotFound .LeftThumb) := by
  decide

/-- Claim C4 (amended): the null-handle check runs first, so a null out-pointer
yields `NullPtr(LoadPrintData)` whatever the native code; with a non-null
handle, `-ENOENT` yields `FingerprintNotFound(finger)`, any other non-zero
code yields `Obscure(code)`, and 0 yields the loaded data. -/
theorem load_data_classification (finger : Finger) (r : Int) (d : Nat) :
    Device.load_data finger r none = .error (.NullPtr .LoadPrintData) ∧
    Device.load_data finger (-ENOENT) (some d) =
      .error (.FingerprintNotFound finger) ∧
    (r ≠ -ENOENT → r ≠ 0 → Device.load_data finger r (some d) =
      .error (.Obscure r)) ∧
    Device.load_data finger 0 (some d) = .ok d := by
  refine ⟨rfl, by simp [Device.load_data], ?_, by simp [Device.load_data, ENOENT]⟩
  intro he h0
  simp [Device.load_data, he, h0]

/-- Concrete instantiation of `load_data_classification`: a non-null handle
with the unclassified native code -5 yields `Obscure(-5)`. -/
theorem load_data_classification_witness :
    Device.load_data .LeftIndex (-5) (some 7) = .error (.Obscure (-5)) :=
  (load_data_classification .LeftIndex (-5) 7).2.2.1 (by decide) (by decide)

/-- Claim C5 (code bug in the source): native code 0 maps to the success value
`NoMatch`, 1 to the success value `Match`, and the retry codes 100, 102 and
103 map to the `RetryVerification` error carrying the sub-reason; but the
`TryFrom` impl for `VerifyResult` has no arm for 101 (`RetryTooShort`, a
variant the enum itself declares and documents), so native code 101 is
rejected as the invalid-enum-value error `TryFromError(101)` instead of
yielding `RetryVerification(RetryTooShort)`. -/
theorem verify_retry_too_short_unhandled :
    Device.verify_finger_image 0 = .ok .NoMatch ∧
    Device.verify_finger_image 1 = .ok .Match ∧
    Device.verify_finger_image 100 = .error (.RetryVerification .Retry) ∧
    Device.verify_finger_image 102 = .error (.RetryVerification .RetryCenterFinger) ∧
    Device.verify_finger_image 103 = .error (.RetryVerification .RetryRemoveFinger) ∧
    Device.verify_finger_image 101 = .error (.TryFromError 101) ∧
    Device.verify_finger_image 101 ≠ .error (.RetryVerification .RetryTooShort) := by
  decide

/-- Claim C10 counterexample: at native return 2 — nonzero —
`DiscoveredDev::supports_print_data` returns `false`, because its comparison
is `result == 1` and not `result != 0`. -/
theorem dscv_supports_print_data_counterexample :
    DiscoveredDev.supports_print_data 2 = false ∧ (2 : Int) ≠ 0 := by
  decide

/-- Claim C10 (amended): `supports_imaging` and `supports_identification`
return true exactly when the native query returns 0;
`Device::supports_print_data` returns true exactly when it returns nonzero;
`DiscoveredDev::supports_print_data` returns true exactly when it returns 1.
The boolean polarity of the first group is opposite to that of both
`supports_print_data` accessors on the 0/1 values the native queries return. -/
theorem capability_polarity (r : Int) :
    (Device.supports_imaging r = true ↔ r = 0) ∧
    (Device.supports_identification r = true ↔ r = 0) ∧
    (Device.supports_print_data r = true ↔ r ≠ 0) ∧
    (DiscoveredDev.supports_print_data r = true ↔ r = 1) := by
  refine ⟨?_, ?_, ?_, ?_⟩ <;>
    simp [Device.supports_imaging, Device.supports_identification,
      Device.supports_print_data, DiscoveredDev.supports_print_data]

/-- Claim C9 counterexample: with a filesystem containing only the directory
path `[0]` and target path `[0, 1]` — whose directory component `[0]` exists
while the file itself does not — `save_to_file` returns `PathNotExists`
without attempting the native save, although the claim says the save is
attempted whenever the parent directory exists. -/
theorem save_to_file_counterexample :
    Image.save_to_file [[0]] [0, 1] 0 = .error .PathNotExists ∧
    path_exists [[0]] (List.dropLast [0, 1]) = true := by
  decide

/-- Claim C9 (amended): `save_to_file` fails with `PathNotExists` exactly when
the full target path does not already exist — the wrapper requires the path
itself, not merely its directory component, to pre-exist; when the path
exists, the native save is attempted and its code mapped (0 to success,
nonzero to `SavePrint`). -/
theorem save_to_file_path_precondition (fs : List (List Nat)) (p : List Nat) (native : Int) :
    (Image.save_to_file fs p native = .error .PathNotExists ↔
      path_exists fs p = false) ∧
    (path_exists fs p = true → native = 0 →
      Image.save_to_file fs p native = .ok ()) ∧
    (path_exists fs p = true → native ≠ 0 →
      Image.save_to_file fs p native = .error (.SavePrint native)) := by
  refine ⟨?_, ?_, ?_⟩
  · cases hp : path_exists fs p
    · simp [Image.save_to_file, hp]
    · rcases eq_or_ne native 0 with h0 | h0 <;> simp [Image.save_to_file, hp, h0]
  · intro hp h0
    simp [Image.save_to_file, hp, h0]
  · intro hp h0
    simp [Image.save_to_file, hp, h0]

/-- Concrete instantiation of `save_to_file_path_precondition`: saving to the
pre-existing path `[0, 1]` with a native code of 0 succeeds. -/
theorem save_to_file_path_precondition_witness :
    Image.save_to_file [[0], [0, 1]] [0, 1] 0 = .ok () :=
  (save_to_file_path_precondition [[0], [0, 1]] [0, 1] 0).2.1 (by decide) rfl

/-- Claim C7 counterexample: at N = 1, driving the enroll loop with one Pass
outcome (native code 3) followed by one Complete outcome (native code 1)
yields one intermediate stage-passed notification, not N - 1 = 0. -/
theorem enroll_loop_counterexample :
    Device.enroll_drive (List.replicate 1 3 ++ [1]) false =
      ([.Pass], some (.ok ())) ∧
    ([EnrollResult.Pass].length ≠ 1 - 1) := by
  decide

/-- Claim C7 (amended): driving the enroll loop against N consecutive Pass
outcomes followed by one Complete outcome (with the print data populated)
yields exactly N intermediate stage-passed notifications — one per Pass, so a
device with N enroll stages, whose final stage itself returns Complete rather
than Pass, yields N - 1 — and completes exactly once with the finished
template. -/
theorem enroll_loop_pass_count (n : Nat) :
    Device.enroll_drive (List.replicate n 3 ++ [1]) false =
      (List.replicate n .Pass, some (.ok ())) := by
  induction n with
  | zero => rfl
  | succ k ih =>
    have h3 : Device.enroll_finger_image 3 = .ok .Pass := by decide
    rw [List.replicate_succ, List.cons_append, List.replicate_succ]
    simp only [Device.enroll_drive, h3]
    rw [ih]
    simp

/-- Helper: `build_gallery` keeps exactly the byte-templates the native parse
accepts, in order. -/
theorem build_gallery_eq_filterMap (parse : List Nat → Option Nat) :
    ∀ gallery : List (List Nat), build_gallery parse gallery = gallery.filterMap parse
  | [] => rfl
  | b :: t => by
    have ih := build_gallery_eq_filterMap parse t
    simp only [build_gallery] at ih
    rcases ho : parse b with _ | v <;>
      simp [build_gallery, PrintData.from_bytes_raw, ho, List.filterMap_cons,
        List.filter_cons, ih]

/-- Helper: a `filterMap` whose function succeeds on every element preserves
the length. -/
theorem length_filterMap_all_some {α β : Type} (f : α → Option β) :
    ∀ l : List α, (∀ b ∈ l, (f b).isSome) → (l.filterMap f).length = l.length
  | [], _ => rfl
  | a :: t, h => by
    rcases ho : f a with _ | v
    · exact absurd (h a (List.mem_cons_self a t)) (by simp [ho])
    · rw [List.filterMap_cons, ho]
      simp [length_filterMap_all_some f t fun b hb => h b (List.mem_cons_of_mem a hb)]

/-- Claim C6 counterexample: with a native reconstruction that rejects the
empty byte-template, the gallery `[[], [5]]` silently loses its first entry —
the native array holds one reconstructed template plus the terminator, not
entries for both supplied templates — and on a native `Match` at native offset
0 the call returns `Matched 0` although the only surviving template sits at
position 1 of the caller-supplied gallery; further, the native retry code 101
is rejected as `TryFromError(101)` instead of being surfaced embedded in the
result. -/
theorem identify_counterexample :
    (Device.identify_finger_image (fun b => if b = [] then none else some 9)
        [[], [5]] 1 0).1 = [some 9, none] ∧
    (Device.identify_finger_image (fun b => if b = [] then none else some 9)
        [[], [5]] 1 0).1.length ≠ [[], [5]].length + 1 ∧
    (Device.identify_finger_image (fun b => if b = [] then none else some 9)
        [[], [5]] 1 0).2 = .ok (.Matched 0) ∧
    (Device.identify_finger_image (fun b => if b = [] then none else some 9)
        [[], [5]] 101 0).2 = .error (.TryFromError 101) := by
  decide

/-- Claim C6 (amended): byte-templates whose reconstruction fails are silently
dropped; the native null-terminated array consists of the successfully
reconstructed templates in caller order followed by the terminator — all of
them whenever every template reconstructs, in which case the native match
offset indexes the caller-supplied ordering — and on a native `Match` (code 1)
the call returns `Matched(offset)` carrying the native offset; `-ENOTSUP`
yields `NotSupported(Identify)` and any other negative code `IdentifyFailed`;
the decoded non-match verify codes (0, 100, 102, 103) are surfaced embedded in
the `Error` variant of the successful identify result. -/
theorem identify_classification (parse : List Nat → Option Nat)
    (gallery : List (List Nat)) (r : Int) (offset : Nat) :
    ((Device.identify_finger_image parse gallery r offset).1 =
      (gallery.filterMap parse).map some ++ [none]) ∧
    ((∀ b ∈ gallery, (parse b).isSome) →
      (gallery.filterMap parse).length = gallery.length) ∧
    ((Device.identify_finger_image parse gallery 1 offset).2 =
      .ok (.Matched offset)) ∧
    ((Device.identify_finger_image parse gallery (-ENOTSUP) offset).2 =
      .error (.NotSupported .Identify)) ∧
    (r < 0 → r ≠ -ENOTSUP →
      (Device.identify_finger_image parse gallery r offset).2 =
        .error (.IdentifyFailed r)) ∧
    ((Device.identify_finger_image parse gallery 0 offset).2 =
      .ok (.Error .NoMatch)) ∧
    ((Device.identify_finger_image parse gallery 100 offset).2 =
      .ok (.Error .Retry)) ∧
    ((Device.identify_finger_image parse gallery 102 offset).2 =
      .ok (.Error .RetryCenterFinger)) ∧
    ((Device.identify_finger_image parse gallery 103 offset).2 =
      .ok (.Error .RetryRemoveFinger)) := by
  refine ⟨?_, ?_, ?_, ?_, ?_, ?_, ?_, ?_, ?_⟩
  · simp [Device.identify_finger_image, build_gallery_eq_filterMap]
  · exact length_filterMap_all_some parse gallery
  · simp [Device.identify_finger_image, VerifyResult.tryFrom, ENOTSUP]
  · simp [Device.identify_finger_image]
  · intro hneg hne
    simp [Device.identify_finger_image, hneg, hne]
  · simp [Device.identify_finger_image, VerifyResult.tryFrom, ENOTSUP]
  · simp [Device.identify_finger_image, VerifyResult.tryFrom,
      EnrollResult.discriminant, ENOTSUP]
  · simp [Device.identify_finger_image, VerifyResult.tryFrom,
      EnrollResult.discriminant, ENOTSUP]
  · simp [Device.identify_finger_image, VerifyResult.tryFrom,
      EnrollResult.discriminant, ENOTSUP]

/-- Concrete instantiation of `identify_classification`: a gallery whose
single template reconstructs, with the unclassified negative native code -7,
yields `IdentifyFailed(-7)`; and the all-reconstruct hypothesis gives the full
gallery length. -/
theorem identify_classification_witness :
    (Device.identify_finger_image (fun _ => some 3) [[2]] (-7) 0).2 =
      .error (.IdentifyFailed (-7)) ∧
    ([[2]].filterMap (fun _ => some (3 : Nat))).length = [[2]].length :=
  ⟨(identify_classification (fun _ => some 3) [[2]] (-7) 0).2.2.2.2.1
      (by decide) (by decide),
   (identify_classification (fun _ => some 3) [[2]] (-7) 0).2.1
      (by intro b _; decide)⟩

end FPrint
